import Mathlib

/-!
Verification of the Automazeng framework sources against their specification.

The development shallowly embeds the two Python sources:

* `src/subdomains_bruteforce/subdomain_bruteforce.py` — the class
  `SubdomainBruteForce` with its methods `resolve_subdomain`,
  `check_http_live`, `process_subdomain`, `run_bruteforce`, `save_to_file`
  and `count_lines`;
* `src/port_scanner/portscanner.py` — the class `SubdomainVulnScanner`
  with its methods `resolve_subdomain` and `scan_ports_and_vulns`.

Network and filesystem effects are modelled by oracles passed explicitly:
a DNS oracle answering whether attempt `i` of a lookup succeeds, an HTTP
oracle answering the status (or connection failure) of attempt `i` of a
GET, one append-outcome oracle per output file telling whether the append
performed for a given candidate succeeds (each `save_to_file` call has its
own `try`/`except`, so append failures are independent per call), and
output files modelled as the list of lines appended to them.  The
per-candidate pipeline of the asynchronous code is sequentialized: each
batch handed to `asyncio.gather` is folded left to right, which realizes
one legal completion order of the batch.
-/

namespace SubdomainBruteForce

/-- Model of Python `str.strip()`: drop leading and trailing whitespace. -/
def strip (s : String) : String :=
  ⟨((s.data.dropWhile Char.isWhitespace).reverse.dropWhile Char.isWhitespace).reverse⟩

/-- Observable outcome of one call to `resolve_subdomain`: whether the name
resolved, how much `self.dns_queries` was incremented inside the call, how
many `asyncio.sleep(0.5)` delays were performed, and how many resolution
attempts were issued. -/
structure ResolveResult where
  resolved : Bool
  dnsQueriesInc : Nat
  sleeps : Nat
  attemptsMade : Nat

/-- Body of the `for _ in range(...)` loop of `resolve_subdomain`
(lines 31–41): attempt `i`; on success increment `dns_queries` and return
the subdomain at once; on `DNSError`/`TimeoutError` sleep 0.5 s and go on
to the next attempt.  `oracle i` tells whether attempt `i` succeeds. -/
def resolveGo (oracle : Nat → Bool) : Nat → Nat → ResolveResult
  | _, 0 => ⟨false, 0, 0, 0⟩
  | i, fuel + 1 =>
    if oracle i then ⟨true, 1, 0, 1⟩
    else
      let r := resolveGo oracle (i + 1) fuel
      ⟨r.resolved, r.dnsQueriesInc, r.sleeps + 1, r.attemptsMade + 1⟩

/-- The loop bound of `resolve_subdomain` is `range(2)` in the source. -/
def resolveMaxAttempts : Nat := 2

/-- Model of `SubdomainBruteForce.resolve_subdomain` (lines 29–41). -/
def resolve_subdomain (oracle : Nat → Bool) : ResolveResult :=
  resolveGo oracle 0 resolveMaxAttempts

/-- Observable outcome of one call to `check_http_live`: the liveness
verdict, the number of GET attempts issued, the increment applied to
`self.http_queries`, and the URL the GET was sent to. -/
structure ProbeResult where
  live : Bool
  attemptsMade : Nat
  httpQueriesInc : Nat
  urlRequested : String

/-- The status codes `check_http_live` accepts as live (line 48). -/
def httpLiveStatuses : List Nat := [200, 301, 302]

/-- Model of `SubdomainBruteForce.check_http_live` (lines 43–53): a single
GET to `http://{subdomain}`; `oracle i` is the status of attempt `i`
(`none` for `ClientError`/`TimeoutError`).  The source consults only
attempt 0: there is no retry loop.  A status in `httpLiveStatuses`
increments `http_queries` and returns the subdomain; any other status
falls through and the method returns `None`. -/
def check_http_live (oracle : Nat → Option Nat) (subdomain : String) : ProbeResult :=
  let url := "http://" ++ subdomain
  match oracle 0 with
  | some status =>
      if status ∈ httpLiveStatuses then ⟨true, 1, 1, url⟩ else ⟨false, 1, 0, url⟩
  | none => ⟨false, 1, 0, url⟩

/-- Model of `SubdomainBruteForce.save_to_file` (lines 107–116): append one
line to the file when the write succeeds; when the underlying write raises,
catch the exception and emit an error message instead (the source prints
`[ERROR] Unable to save {data}: {e}`; the model keeps the message prefix).
Returns the new file contents and the emitted log lines. -/
def save_to_file (writeOk : Bool) (file : List String) (data : String) :
    List String × List String :=
  if writeOk then (file ++ [data], [])
  else (file, ["[ERROR] Unable to save " ++ data])

/-- Model of `SubdomainBruteForce.count_lines` (lines 118–124): `wc -l` on
an existing file is its number of lines. -/
def count_lines (file : List String) : Nat :=
  file.length

/-- Environment of a run: the DNS oracle (per subdomain, per attempt), the
HTTP oracle (per subdomain, per attempt, `none` = connection failure or
timeout), and one append-outcome oracle per output file, answering whether
the append of a given candidate to that file succeeds.  Every
`save_to_file` call sits in its own `try`/`except`, so an append can fail
for one file and succeed for the other, even within one candidate. -/
structure Env where
  dns : String → Nat → Bool
  http : String → Nat → Option Nat
  writeDnsOk : String → Bool
  writeHttpOk : String → Bool

/-- Mutable state of a `SubdomainBruteForce` run: the two output files,
the counters `total_processed`, `dns_queries`, `http_queries`, the emitted
error log, and a ghost counter `httpProbeCalls` recording how many times
`check_http_live` was invoked. -/
structure RunState where
  dnsFile : List String
  httpFile : List String
  total_processed : Nat
  dns_queries : Nat
  http_queries : Nat
  httpProbeCalls : Nat
  errors : List String

/-- Model of `SubdomainBruteForce.process_subdomain` (lines 55–73) for one
candidate: resolve; if resolved, append to the DNS-only file, probe HTTP
and, if live, append to the DNS-and-HTTP file; then, when
`total_processed % 10 == 0`, overwrite both query counters with the line
counts of the output files; finally increment `total_processed`. -/
def process_subdomain (env : Env) (s : RunState) (subdomain : String) : RunState :=
  let r := resolve_subdomain (env.dns subdomain)
  let s1 : RunState := { s with dns_queries := s.dns_queries + r.dnsQueriesInc }
  let s2 : RunState :=
    if r.resolved then
      let sv := save_to_file (env.writeDnsOk subdomain) s1.dnsFile subdomain
      let s1a : RunState := { s1 with dnsFile := sv.1, errors := s1.errors ++ sv.2,
                                      httpProbeCalls := s1.httpProbeCalls + 1 }
      let p := check_http_live (env.http subdomain) subdomain
      let s1b : RunState := { s1a with http_queries := s1a.http_queries + p.httpQueriesInc }
      if p.live then
        let sv2 := save_to_file (env.writeHttpOk subdomain) s1b.httpFile subdomain
        { s1b with httpFile := sv2.1, errors := s1b.errors ++ sv2.2 }
      else s1b
    else s1
  let s3 : RunState :=
    if s2.total_processed % 10 == 0 then
      { s2 with dns_queries := count_lines s2.dnsFile,
                http_queries := count_lines s2.httpFile }
    else s2
  { s3 with total_processed := s3.total_processed + 1 }

/-- Candidate built from one wordlist line (line 91):
`f"{line.strip()}.{self.domain}"`. -/
def mkSubdomain (domain line : String) : String :=
  strip line ++ "." ++ domain

/-- The candidates of a run, one per wordlist line, blank or not, in file
order. -/
def candidates (domain : String) (lines : List String) : List String :=
  lines.map (mkSubdomain domain)

/-- Batching loop of `run_bruteforce` (lines 89–99): append each candidate
to `batch`; once `len(batch) >= max_concurrent_tasks`, emit the batch and
clear it; after the loop, emit the remaining partial batch if non-empty. -/
def makeBatches (maxConcurrent : Nat) : List String → List String → List (List String)
  | batch, [] => if batch.isEmpty then [] else [batch]
  | batch, c :: cs =>
      if maxConcurrent ≤ (batch ++ [c]).length then
        (batch ++ [c]) :: makeBatches maxConcurrent [] cs
      else makeBatches maxConcurrent (batch ++ [c]) cs

/-- One `asyncio.gather` over a batch, sequentialized left to right. -/
def process_batch (env : Env) (s : RunState) (batch : List String) : RunState :=
  batch.foldl (process_subdomain env) s

/-- State right after `run_bruteforce` truncates both output files
(lines 80–81): empty files, zero counters, no errors. -/
def initState : RunState :=
  ⟨[], [], 0, 0, 0, 0, []⟩

/-- Default of the `max_concurrent_tasks` constructor argument and of the
`--batch` CLI option. -/
def defaultMaxConcurrent : Nat := 5

/-- Model of `SubdomainBruteForce.run_bruteforce` (lines 75–105) followed
by process exit as `main` performs it.  `priorDnsFile` and `priorHttpFile`
are the output files as a prior run left them; the method truncates both
before touching the wordlist.  `wordlist` is `none` when the wordlist
cannot be opened: the exception handler prints an error and returns
normally, so the process still exits with code 0.  Returns the exit code
and the final run state. -/
def run_bruteforce (env : Env) (maxConcurrent : Nat) (domain : String)
    (priorDnsFile priorHttpFile : List String)
    (wordlist : Option (List String)) : Nat × RunState :=
  match wordlist with
  | none => (0, { initState with errors := ["[ERROR] Failed to read wordlist"] })
  | some lines =>
      (0, (makeBatches maxConcurrent [] (candidates domain lines)).foldl
            (process_batch env) initState)

end SubdomainBruteForce

namespace SubdomainVulnScanner

/-- Outcome of `subprocess.run` on the nmap command: the exit code and the
captured standard output. -/
structure NmapResult where
  returncode : Int
  stdout : String

/-- The `"=" * 80` separator line of `scan_ports_and_vulns` (line 49). -/
def eqBar : String :=
  ⟨List.replicate 80 '='⟩

/-- The block `scan_ports_and_vulns` appends to the output file for one
scanned subdomain (lines 46–49): header, nmap stdout, separator. -/
def scanReport (subdomain ipAddr out : String) : String :=
  "\n\n[SCAN RESULTS FOR " ++ subdomain ++ " (" ++ ipAddr ++ ")]\n" ++ out
    ++ "\n" ++ eqBar ++ "\n"

/-- Model of `SubdomainVulnScanner.resolve_subdomain` (lines 13–19):
`socket.gethostbyname` either yields an IP or raises, in which case the
method returns `(subdomain, None)`.  `gethostbyname` is the oracle for
that call. -/
def resolve_subdomain (gethostbyname : Option String) (subdomain : String) :
    String × Option String :=
  (subdomain, gethostbyname)

/-- Model of `SubdomainVulnScanner.scan_ports_and_vulns` (lines 21–54):
return at once when `ip` is `None`; run nmap (`nmapRun = none` models an
exception raised inside the `try`); return when the exit code is non-zero;
otherwise append the report block to the output file — unless the append
itself raises (`writeOk = false`), which the bare `except` swallows,
leaving the file unchanged. -/
def scan_ports_and_vulns (nmapRun : Option NmapResult) (writeOk : Bool)
    (outputFile : List String) (subdomain : String) (ip : Option String) :
    List String :=
  match ip with
  | none => outputFile
  | some ipAddr =>
      match nmapRun with
      | none => outputFile
      | some r =>
          if r.returncode ≠ 0 then outputFile
          else if writeOk then outputFile ++ [scanReport subdomain ipAddr r.stdout]
          else outputFile

/-- One iteration of the loop in `process_subdomains` (lines 69–71):
resolve the subdomain, then hand the pair to `scan_ports_and_vulns`. -/
def process_one (gethostbyname : Option String) (nmapRun : Option NmapResult)
    (writeOk : Bool) (outputFile : List String) (subdomain : String) :
    List String :=
  let res := resolve_subdomain gethostbyname subdomain
  scan_ports_and_vulns nmapRun writeOk outputFile res.1 res.2

end SubdomainVulnScanner

namespace SubdomainBruteForce

/-- Closed form of `resolve_subdomain`: with the loop bound `range(2)` the
call succeeds exactly when attempt 0 or attempt 1 succeeds, stops on the
first success, and sleeps after every failed attempt, the last included. -/
theorem resolve_subdomain_spec (oracle : Nat → Bool) :
    resolve_subdomain oracle =
      if oracle 0 then ⟨true, 1, 0, 1⟩
      else if oracle 1 then ⟨true, 1, 1, 2⟩
      else ⟨false, 0, 2, 2⟩ := by
  cases h0 : oracle 0 <;> cases h1 : oracle 1 <;>
    simp [resolve_subdomain, resolveMaxAttempts, resolveGo, h0, h1]

/-- Closed form of `process_subdomain`, separating the effect on every
field of the run state. -/
theorem process_subdomain_spec (env : Env) (s : RunState) (sub : String) :
    process_subdomain env s sub =
      { dnsFile := s.dnsFile ++
          (if (resolve_subdomain (env.dns sub)).resolved && env.writeDnsOk sub
            then [sub] else [])
        httpFile := s.httpFile ++
          (if (resolve_subdomain (env.dns sub)).resolved
              && (check_http_live (env.http sub) sub).live && env.writeHttpOk sub
            then [sub] else [])
        total_processed := s.total_processed + 1
        dns_queries :=
          if s.total_processed % 10 == 0 then
            (s.dnsFile ++
              (if (resolve_subdomain (env.dns sub)).resolved && env.writeDnsOk sub
                then [sub] else [])).length
          else s.dns_queries + (resolve_subdomain (env.dns sub)).dnsQueriesInc
        http_queries :=
          if s.total_processed % 10 == 0 then
            (s.httpFile ++
              (if (resolve_subdomain (env.dns sub)).resolved
                  && (check_http_live (env.http sub) sub).live && env.writeHttpOk sub
                then [sub] else [])).length
          else s.http_queries +
            (if (resolve_subdomain (env.dns sub)).resolved
              then (check_http_live (env.http sub) sub).httpQueriesInc else 0)
        httpProbeCalls := s.httpProbeCalls +
          (if (resolve_subdomain (env.dns sub)).resolved then 1 else 0)
        errors := s.errors ++
          (if (resolve_subdomain (env.dns sub)).resolved && !env.writeDnsOk sub
            then ["[ERROR] Unable to save " ++ sub] else []) ++
          (if (resolve_subdomain (env.dns sub)).resolved
              && (check_http_live (env.http sub) sub).live && !env.writeHttpOk sub
            then ["[ERROR] Unable to save " ++ sub] else []) } := by
  cases hr : (resolve_subdomain (env.dns sub)).resolved <;>
    cases hwd : env.writeDnsOk sub <;>
      cases hwh : env.writeHttpOk sub <;>
        cases hp : (check_http_live (env.http sub) sub).live <;>
          by_cases hm : s.total_processed % 10 = 0 <;>
            simp [process_subdomain, save_to_file, count_lines, hr, hwd, hwh, hp, hm]

/-- Each call to `process_subdomain` increments `total_processed` once. -/
theorem process_subdomain_total (env : Env) (s : RunState) (sub : String) :
    (process_subdomain env s sub).total_processed = s.total_processed + 1 := by
  rw [process_subdomain_spec]

/-- Folding `process_subdomain` over a candidate list increments
`total_processed` once per candidate. -/
theorem foldl_process_total (env : Env) (cs : List String) :
    ∀ s : RunState,
      (cs.foldl (process_subdomain env) s).total_processed =
        s.total_processed + cs.length := by
  induction cs with
  | nil => intro s; simp
  | cons c cs ih =>
      intro s
      rw [List.foldl_cons, ih, process_subdomain_total]
      simp only [List.length_cons]
      omega

/-- `process_subdomain` preserves the invariant that every line of the
DNS-and-HTTP file also occurs in the DNS-only file, provided the DNS-only
append for this candidate succeeds.  (When that append fails and is
swallowed, the invariant can break: see the C4 counterexample.) -/
theorem process_subdomain_subset (env : Env) (s : RunState) (sub : String)
    (hdw : env.writeDnsOk sub = true) (h : s.httpFile ⊆ s.dnsFile) :
    (process_subdomain env s sub).httpFile ⊆ (process_subdomain env s sub).dnsFile := by
  rw [process_subdomain_spec]
  cases hr : (resolve_subdomain (env.dns sub)).resolved <;>
    cases hwh : env.writeHttpOk sub <;>
      cases hp : (check_http_live (env.http sub) sub).live <;>
        simp [hdw]
  all_goals
    first
      | exact h
      | exact fun x hx => List.mem_append_left _ (h hx)

/-- Folding `process_subdomain` preserves the file-subset invariant when
every DNS-only append succeeds. -/
theorem foldl_process_subset (env : Env) (hdw : ∀ w, env.writeDnsOk w = true)
    (cs : List String) :
    ∀ s : RunState, s.httpFile ⊆ s.dnsFile →
      (cs.foldl (process_subdomain env) s).httpFile ⊆
        (cs.foldl (process_subdomain env) s).dnsFile := by
  induction cs with
  | nil => intro s h; simpa using h
  | cons c cs ih =>
      intro s h
      rw [List.foldl_cons]
      exact ih _ (process_subdomain_subset env s c (hdw c) h)

/-- When both appends for a candidate fail, `process_subdomain` leaves
both files unchanged. -/
theorem process_subdomain_writeFail (env : Env) (s : RunState) (sub : String)
    (hd : env.writeDnsOk sub = false) (hh : env.writeHttpOk sub = false) :
    (process_subdomain env s sub).dnsFile = s.dnsFile ∧
      (process_subdomain env s sub).httpFile = s.httpFile := by
  rw [process_subdomain_spec]
  simp [hd, hh]

/-- When every append fails, folding `process_subdomain` over any
candidate list leaves both files unchanged. -/
theorem foldl_process_writeFail (env : Env)
    (hd : ∀ w, env.writeDnsOk w = false) (hh : ∀ w, env.writeHttpOk w = false)
    (cs : List String) :
    ∀ s : RunState,
      (cs.foldl (process_subdomain env) s).dnsFile = s.dnsFile ∧
        (cs.foldl (process_subdomain env) s).httpFile = s.httpFile := by
  induction cs with
  | nil => intro s; exact ⟨rfl, rfl⟩
  | cons c cs ih =>
      intro s
      rw [List.foldl_cons]
      rcases ih (process_subdomain env s c) with ⟨h1, h2⟩
      rcases process_subdomain_writeFail env s c (hd c) (hh c) with ⟨h3, h4⟩
      exact ⟨h1.trans h3, h2.trans h4⟩

/-- The batches produced by the `run_bruteforce` loop concatenate back to
the original candidate list: nothing dropped, nothing duplicated, order
kept. -/
theorem makeBatches_flatten (K : Nat) :
    ∀ (cs batch : List String), (makeBatches K batch cs).flatten = batch ++ cs := by
  intro cs
  induction cs with
  | nil =>
      intro batch
      simp only [makeBatches]
      split
      · simp_all [List.isEmpty_iff]
      · simp
  | cons c cs ih =>
      intro batch
      simp only [makeBatches]
      split
      · simp [ih]
      · rw [ih]
        simp

/-- Every batch produced by the `run_bruteforce` loop has size at most the
concurrency bound, provided the running batch starts below the bound. -/
theorem makeBatches_length_le (K : Nat) :
    ∀ (cs batch : List String), batch.length < K →
      ∀ b ∈ makeBatches K batch cs, b.length ≤ K := by
  intro cs
  induction cs with
  | nil =>
      intro batch hb b hmem
      simp only [makeBatches] at hmem
      split at hmem
      · simp at hmem
      · rw [List.mem_singleton] at hmem
        subst hmem
        omega
  | cons c cs ih =>
      intro batch hb b hmem
      simp only [makeBatches] at hmem
      split at hmem
      · rcases List.mem_cons.1 hmem with hb1 | hb2
        · subst hb1
          simp
          omega
        · exact ih [] (by simpa using Nat.lt_of_le_of_lt (Nat.zero_le _) hb) b hb2
      · exact ih (batch ++ [c]) (by simp at *; omega) b hmem

/-- Processing batch by batch is processing the flattened candidate list. -/
theorem foldl_process_batch (env : Env) (bs : List (List String)) (s : RunState) :
    bs.foldl (process_batch env) s = bs.flatten.foldl (process_subdomain env) s :=
  (List.foldl_flatten (process_subdomain env) s bs).symm

end SubdomainBruteForce

namespace SubdomainBruteForce

/-- Environment where every DNS attempt succeeds, every HTTP GET answers
status 200 and every file append succeeds. -/
def envAllGood : Env :=
  ⟨fun _ _ => true, fun _ _ => some 200, fun _ => true, fun _ => true⟩

/-- Environment where every DNS attempt succeeds, every HTTP GET times out
and every file append fails. -/
def envWriteFail : Env :=
  ⟨fun _ _ => true, fun _ _ => none, fun _ => false, fun _ => false⟩

/-- Environment where every DNS attempt succeeds and every HTTP GET
answers status 200, but every append to the DNS-only file fails while
every append to the DNS-and-HTTP file succeeds — the swallowed-persist
split the per-call `try`/`except` of `save_to_file` makes possible. -/
def envDnsSaveFails : Env :=
  ⟨fun _ _ => true, fun _ _ => some 200, fun _ => false, fun _ => true⟩

/-- C1, counterexample: a candidate whose resolution fails on attempts 0
and 1 and would succeed on attempt 2 is returned unresolved — the loop is
`range(2)`, so the third attempt the claim relies on never happens — and
processing that candidate records no DNS hit in the output file. -/
theorem C1_counterexample :
    (resolve_subdomain (fun i => Nat.ble 2 i)).resolved = false ∧
    (process_subdomain
        ⟨fun _ i => Nat.ble 2 i, fun _ _ => some 200, fun _ => true, fun _ => true⟩
        initState "www.example.com").dnsFile = [] := by
  decide

/-- C1, amended: `resolve_subdomain` makes at most 2 resolution attempts
(the hardcoded `range(2)`, not the spec's canonical default of 3 and not
configurable); it returns a resolved outcome immediately on the first
successful attempt, returns unresolved only after both attempts fail, and
sleeps the 0.5 s retry delay after every failed attempt, the last
included. -/
theorem C1_amended_resolver_two_attempts (oracle : Nat → Bool) :
    resolveMaxAttempts = 2 ∧
    (resolve_subdomain oracle).resolved = (oracle 0 || oracle 1) ∧
    (resolve_subdomain oracle).attemptsMade = (if oracle 0 then 1 else 2) ∧
    (resolve_subdomain oracle).sleeps =
      (if oracle 0 then 0 else if oracle 1 then 1 else 2) ∧
    (resolve_subdomain oracle).dnsQueriesInc =
      (if oracle 0 || oracle 1 then 1 else 0) := by
  rw [resolve_subdomain_spec]
  cases h0 : oracle 0 <;> cases h1 : oracle 1 <;> simp [resolveMaxAttempts]

/-- C2, counterexample: a run over the wordlist `["www", "www"]` discovers
the FQDN `www.example.com` twice and the DNS-only output file ends with
two lines for it, not at most one — `save_to_file` has no deduplication
gate. -/
theorem C2_counterexample :
    ((run_bruteforce envAllGood 5 "example.com" [] []
        (some ["www", "www"])).2.dnsFile.count "www.example.com") = 2 := by
  decide

/-- C2, amended: `save_to_file` appends one line on every successful call,
unconditionally — there is no membership check — so recording the same
FQDN a second time is not a no-op: it leaves the output file with two more
lines for that FQDN than before. -/
theorem C2_amended_save_appends_unconditionally (file : List String) (d : String) :
    (save_to_file true file d).1 = file ++ [d] ∧
    ((save_to_file true (save_to_file true file d).1 d).1).count d =
      file.count d + 2 := by
  refine ⟨rfl, ?_⟩
  simp [save_to_file, List.count_append]

/-- C3: with `max_concurrent_tasks = K ≥ 1` the batching loop of
`run_bruteforce` splits the candidate list into batches that concatenate
back to the original list (no candidate dropped or duplicated, order
kept), every batch — the set of tasks simultaneously inside
`asyncio.gather`, i.e. inside DNS/HTTP I/O — has size at most K, and
processing all batches processes each candidate exactly once, incrementing
`total_processed` once per candidate. -/
theorem C3_batches_bound_and_complete (K : Nat) (hK : 1 ≤ K) (env : Env)
    (s : RunState) (cs : List String) :
    (makeBatches K [] cs).flatten = cs ∧
    (∀ b ∈ makeBatches K [] cs, b.length ≤ K) ∧
    ((makeBatches K [] cs).foldl (process_batch env) s).total_processed =
      s.total_processed + cs.length := by
  refine ⟨?_, ?_, ?_⟩
  · simpa using makeBatches_flatten K cs []
  · exact makeBatches_length_le K cs [] (by simpa using hK)
  · rw [foldl_process_batch, makeBatches_flatten, List.nil_append,
      foldl_process_total]

/-- Witness for C3 at `K = 2` and three candidates. -/
theorem C3_witness :
    (makeBatches 2 [] ["a.example.com", "b.example.com", "c.example.com"]).flatten =
        ["a.example.com", "b.example.com", "c.example.com"] ∧
    (∀ b ∈ makeBatches 2 [] ["a.example.com", "b.example.com", "c.example.com"],
        b.length ≤ 2) ∧
    ((makeBatches 2 [] ["a.example.com", "b.example.com", "c.example.com"]).foldl
          (process_batch envAllGood) initState).total_processed =
      initState.total_processed +
        ["a.example.com", "b.example.com", "c.example.com"].length :=
  C3_batches_bound_and_complete 2 (by decide) envAllGood initState
    ["a.example.com", "b.example.com", "c.example.com"]

/-- C4, counterexample: in a run over the single word `www` where the
candidate resolves and answers HTTP 200, but the DNS-only append raises
(swallowed by `save_to_file`) while the DNS-and-HTTP append succeeds, the
FQDN `www.example.com` ends in the DNS-and-HTTP output file and is absent
from the DNS-only output file — refuting the claim that every FQDN of the
`dnsAndHttp` tier is also in the `dnsOnly` tier. -/
theorem C4_counterexample :
    (run_bruteforce envDnsSaveFails 5 "example.com" [] []
        (some ["www"])).2.httpFile = ["www.example.com"] ∧
    (run_bruteforce envDnsSaveFails 5 "example.com" [] []
        (some ["www"])).2.dnsFile = [] ∧
    "www.example.com" ∈
      (run_bruteforce envDnsSaveFails 5 "example.com" [] [] (some ["www"])).2.httpFile ∧
    "www.example.com" ∉
      (run_bruteforce envDnsSaveFails 5 "example.com" [] [] (some ["www"])).2.dnsFile := by
  decide

/-- C4, amended: `check_http_live` is invoked for a candidate exactly when
its DNS resolution succeeded (the ghost probe counter grows by 1 on
resolution and by 0 otherwise), unconditionally; and provided every append
to the DNS-only file succeeds, in any run over any wordlist every line of
the DNS-and-HTTP output file also occurs in the DNS-only output file.
Without that proviso the inclusion can fail: a swallowed DNS-only append
failure followed by a successful DNS-and-HTTP append leaves a FQDN in the
second file only. -/
theorem C4_amended_http_only_after_dns (env : Env) (s : RunState) (sub : String)
    (K : Nat) (domain : String) (p1 p2 : List String) (lines : List String)
    (hdw : ∀ w, env.writeDnsOk w = true) :
    (process_subdomain env s sub).httpProbeCalls =
      s.httpProbeCalls +
        (if (resolve_subdomain (env.dns sub)).resolved then 1 else 0) ∧
    (run_bruteforce env K domain p1 p2 (some lines)).2.httpFile ⊆
      (run_bruteforce env K domain p1 p2 (some lines)).2.dnsFile := by
  constructor
  · rw [process_subdomain_spec]
  · simp only [run_bruteforce, foldl_process_batch]
    exact foldl_process_subset env hdw _ initState
      (fun x hx => by simp [initState] at hx)

/-- Witness for C4 on a concrete one-word run with reliable appends. -/
theorem C4_witness :
    (process_subdomain envAllGood initState "www.example.com").httpProbeCalls =
      initState.httpProbeCalls +
        (if (resolve_subdomain (envAllGood.dns "www.example.com")).resolved
          then 1 else 0) ∧
    (run_bruteforce envAllGood 5 "example.com" [] [] (some ["www"])).2.httpFile ⊆
      (run_bruteforce envAllGood 5 "example.com" [] [] (some ["www"])).2.dnsFile :=
  C4_amended_http_only_after_dns envAllGood initState "www.example.com" 5
    "example.com" [] [] ["www"] (fun _ => rfl)

/-- C5, counterexample: on the wordlist `["www", "", "mail"]` the run
reaches its end with `total_processed = 3`, while the wordlist has only 2
non-blank lines; the blank line is not ignored but turned into the
candidate `.example.com`. -/
theorem C5_counterexample :
    (run_bruteforce envAllGood 5 "example.com" [] []
        (some ["www", "", "mail"])).2.total_processed = 3 ∧
    (["www", "", "mail"].filter (fun l => !(strip l == ""))).length = 2 ∧
    candidates "example.com" ["www", "", "mail"] =
      ["www.example.com", ".example.com", "mail.example.com"] := by
  decide

/-- C5, amended: every wordlist line, blank or not, yields exactly one
candidate (`{line.strip()}.{domain}`), and the processed count when the
run completes equals the total number of lines in the wordlist, blank
lines included. -/
theorem C5_amended_processed_counts_all_lines (env : Env) (K : Nat)
    (domain : String) (p1 p2 : List String) (lines : List String) :
    (run_bruteforce env K domain p1 p2 (some lines)).2.total_processed =
      lines.length ∧
    (candidates domain lines).length = lines.length := by
  constructor
  · simp only [run_bruteforce, foldl_process_batch]
    rw [makeBatches_flatten, List.nil_append, foldl_process_total]
    simp [initState, candidates]
  · simp [candidates]

/-- C6, counterexample: an HTTP oracle whose attempt 0 is a connection
failure and whose attempt 1 would answer 200 yields a not-live outcome
after a single attempt — the claimed retry up to `maxAttempts = 2` does
not exist in the code. -/
theorem C6_counterexample :
    (check_http_live (fun i => if i == 0 then none else some 200)
        "www.example.com").live = false ∧
    (check_http_live (fun i => if i == 0 then none else some 200)
        "www.example.com").attemptsMade = 1 := by
  decide

/-- C6, amended: `check_http_live` issues exactly one GET to
`http://{fqdn}`; it classifies the response as live exactly when the
status is in {200, 301, 302}, incrementing `http_queries` in that case;
any other status, connection error, or timeout yields a not-live outcome
immediately, with no retry. -/
theorem C6_amended_single_http_attempt (oracle : Nat → Option Nat) (sub : String) :
    (check_http_live oracle sub).urlRequested = "http://" ++ sub ∧
    (check_http_live oracle sub).attemptsMade = 1 ∧
    ((check_http_live oracle sub).live = true ↔
      ∃ status, oracle 0 = some status ∧ status ∈ httpLiveStatuses) ∧
    (check_http_live oracle sub).httpQueriesInc =
      (if (check_http_live oracle sub).live then 1 else 0) := by
  cases h : oracle 0 with
  | none => simp [check_http_live, h]
  | some status =>
      by_cases hs : status ∈ httpLiveStatuses <;> simp [check_http_live, h, hs]

/-- C7, counterexample: with the wordlist unreadable, a run over output
files holding results of a prior run exits with code 0 — not non-zero —
and both output files have been truncated to empty. -/
theorem C7_counterexample :
    (run_bruteforce envAllGood 5 "example.com"
        ["stale.example.com"] ["stale2.example.com"] none).1 = 0 ∧
    (run_bruteforce envAllGood 5 "example.com"
        ["stale.example.com"] ["stale2.example.com"] none).2.dnsFile = [] ∧
    (run_bruteforce envAllGood 5 "example.com"
        ["stale.example.com"] ["stale2.example.com"] none).2.httpFile = [] := by
  decide

/-- C7, amended: if the wordlist cannot be opened the run aborts before
any candidate is processed or probed and logs a wordlist error, but both
output files have already been created and truncated to empty — destroying
any prior run's contents — and the process exits with code 0, not
non-zero, because the exception handler returns normally. -/
theorem C7_amended_missing_wordlist (env : Env) (K : Nat) (domain : String)
    (priorDns priorHttp : List String) :
    (run_bruteforce env K domain priorDns priorHttp none).1 = 0 ∧
    (run_bruteforce env K domain priorDns priorHttp none).2.total_processed = 0 ∧
    (run_bruteforce env K domain priorDns priorHttp none).2.httpProbeCalls = 0 ∧
    (run_bruteforce env K domain priorDns priorHttp none).2.dnsFile = [] ∧
    (run_bruteforce env K domain priorDns priorHttp none).2.httpFile = [] ∧
    (run_bruteforce env K domain priorDns priorHttp none).2.errors =
      ["[ERROR] Failed to read wordlist"] := by
  simp [run_bruteforce, initState]

/-- C8: when the underlying appends fail, `save_to_file` returns normally
with the file unchanged and the error logged, and a run keeps processing
every remaining candidate — the files stay unchanged while
`total_processed` still advances once per candidate; a failed persist
never aborts the run. -/
theorem C8_persist_failure_swallowed (env : Env)
    (hd : ∀ w, env.writeDnsOk w = false) (hh : ∀ w, env.writeHttpOk w = false)
    (s : RunState) (cs : List String) :
    (∀ file d, save_to_file false file d =
        (file, ["[ERROR] Unable to save " ++ d])) ∧
    (cs.foldl (process_subdomain env) s).dnsFile = s.dnsFile ∧
    (cs.foldl (process_subdomain env) s).httpFile = s.httpFile ∧
    (cs.foldl (process_subdomain env) s).total_processed =
      s.total_processed + cs.length := by
  refine ⟨?_, (foldl_process_writeFail env hd hh cs s).1,
    (foldl_process_writeFail env hd hh cs s).2, foldl_process_total env cs s⟩
  intro file d
  simp [save_to_file]

/-- Witness for C8 with an always-failing filesystem and one candidate. -/
theorem C8_witness :
    (∀ file d, save_to_file false file d =
        (file, ["[ERROR] Unable to save " ++ d])) ∧
    ((["www.example.com"] : List String).foldl
        (process_subdomain envWriteFail) initState).dnsFile = initState.dnsFile ∧
    ((["www.example.com"] : List String).foldl
        (process_subdomain envWriteFail) initState).httpFile = initState.httpFile ∧
    ((["www.example.com"] : List String).foldl
        (process_subdomain envWriteFail) initState).total_processed =
      initState.total_processed + (["www.example.com"] : List String).length :=
  C8_persist_failure_swallowed envWriteFail (fun _ => rfl) (fun _ => rfl)
    initState ["www.example.com"]

/-- C9, counterexample: processing one resolving candidate (so the ghost
probe counter records one DNS hit) in an environment where the append
failed leaves `dns_queries` equal to the output file's line count 0, not
to the serialized in-memory increment 1: the implementation does
reconcile the reported counts by re-reading the output files mid-run. -/
theorem C9_counterexample :
    (process_subdomain envWriteFail initState "www.example.com").httpProbeCalls = 1 ∧
    (process_subdomain envWriteFail initState "www.example.com").dns_queries =
      count_lines (process_subdomain envWriteFail initState "www.example.com").dnsFile ∧
    (process_subdomain envWriteFail initState "www.example.com").dns_queries ≠
      initState.dns_queries +
        (resolve_subdomain (envWriteFail.dns "www.example.com")).dnsQueriesInc := by
  decide

/-- C9, amended: on every candidate processed while `total_processed` is a
multiple of 10 — the very first candidate included — `process_subdomain`
overwrites both reported counters with the line counts of the output
files obtained through `count_lines` (`wc -l`), treating the files as
authoritative; only on the other candidates are the in-memory increments
kept. -/
theorem C9_amended_counts_from_file_lines (env : Env) (s : RunState) (sub : String) :
    (process_subdomain env s sub).dns_queries =
      (if s.total_processed % 10 == 0 then
        count_lines (process_subdomain env s sub).dnsFile
       else s.dns_queries + (resolve_subdomain (env.dns sub)).dnsQueriesInc) ∧
    (process_subdomain env s sub).http_queries =
      (if s.total_processed % 10 == 0 then
        count_lines (process_subdomain env s sub).httpFile
       else s.http_queries +
        (if (resolve_subdomain (env.dns sub)).resolved
          then (check_http_live (env.http sub) sub).httpQueriesInc else 0)) := by
  rw [process_subdomain_spec]
  by_cases hm : (s.total_processed % 10 == 0) = true <;>
    simp [hm, count_lines]

end SubdomainBruteForce

namespace SubdomainVulnScanner

/-- C10: for every subdomain handled by `process_one`, either the results
file is left exactly unchanged, or the resolution yielded an IP, nmap ran
and exited with return code 0, and exactly the report block for this
subdomain was appended; in particular on resolution failure, a non-zero
nmap exit, or an exception the file is unchanged. -/
theorem C10_portscan_append_guard (gethostbyname : Option String)
    (nmapRun : Option NmapResult) (writeOk : Bool) (outputFile : List String)
    (subdomain : String) :
    process_one gethostbyname nmapRun writeOk outputFile subdomain = outputFile ∨
    ∃ ipAddr r, gethostbyname = some ipAddr ∧ nmapRun = some r ∧
      r.returncode = 0 ∧
      process_one gethostbyname nmapRun writeOk outputFile subdomain =
        outputFile ++ [scanReport subdomain ipAddr r.stdout] := by
  cases g : gethostbyname with
  | none => left; rfl
  | some ip =>
      cases n : nmapRun with
      | none => left; rfl
      | some r =>
          by_cases hrc : r.returncode = 0
          · cases w : writeOk
            · left
              simp [process_one, resolve_subdomain, scan_ports_and_vulns, hrc]
            · right
              exact ⟨ip, r, rfl, rfl, hrc,
                by simp [process_one, resolve_subdomain, scan_ports_and_vulns, hrc]⟩
          · left
            simp [process_one, resolve_subdomain, scan_ports_and_vulns, hrc]

end SubdomainVulnScanner
